import Mathlib

/-!
Verification of the confidence-visualization and export pipeline of the
deepgram-demo repository (src/demo.py, the direct-HTTP variant, and
src/demo2.py, the SDK variant).

The Python source is shallowly embedded: float arithmetic on confidences
is modelled by exact rational arithmetic (`ℚ`), Python strings by `String`,
decoded JSON documents by an inductive `Json` type, and runtime exceptions
(`KeyError`, `IndexError`, `TypeError`) by an explicit error type threaded
through `Except`.
-/

namespace DeepgramDemo

/-- A recognized word as handed to the renderer: in demo.py an element of
`results['results']['channels'][0]['alternatives'][0]['words']` with its
`'word'` and `'confidence'` fields; in demo2.py a typed SDK word object
with `.word` and `.confidence`. -/
structure TranscriptWord where
  word : String
  confidence : ℚ
deriving DecidableEq

/-- Python `int()` applied to a numeric expression: truncation toward zero.
Used by both demos to compute the colour channels (demo.py lines 77-78,
demo2.py lines 88-89). -/
def pyInt (q : ℚ) : ℤ :=
  if 0 ≤ q then ⌊q⌋ else ⌈q⌉

/-- The decimal digit character for `d < 10`. -/
def natDigitChar (d : ℕ) : Char :=
  Char.ofNat (48 + d)

/-- Fuel-driven decimal digit expansion of a natural number, most
significant digit first. -/
def natDigitsAux : ℕ → ℕ → List Char
  | 0, _ => []
  | fuel + 1, n =>
    if n < 10 then [natDigitChar n]
    else natDigitsAux fuel (n / 10) ++ [natDigitChar (n % 10)]

/-- Decimal rendering of a natural number. -/
def natDecimal (n : ℕ) : String :=
  String.mk (natDigitsAux (n + 1) n)

/-- Two-digit decimal rendering with a leading zero, for the fractional
part of a fixed-point number. -/
def twoDigitString (m : ℕ) : String :=
  (if m < 10 then "0" else "") ++ natDecimal m

/-- Round half to even, the rounding applied by Python float formatting. -/
def roundHalfEven (q : ℚ) : ℤ :=
  if q - ⌊q⌋ < 1 / 2 then ⌊q⌋
  else if 1 / 2 < q - ⌊q⌋ then ⌊q⌋ + 1
  else if ⌊q⌋ % 2 = 0 then ⌊q⌋ else ⌊q⌋ + 1

/-- Python `f"{x:.2f}"` for a nonnegative value, in the exact rational
model of the source's float arithmetic: the value scaled by 100 is rounded
half-to-even and printed with two decimal places.  Confidences lie in
[0,1], so the nonnegative restriction is harmless. -/
def fmt2 (q : ℚ) : String :=
  natDecimal ((roundHalfEven (100 * q)).toNat / 100) ++ "." ++
    twoDigitString ((roundHalfEven (100 * q)).toNat % 100)

/-- One rendered word span: background colour channels, foreground colour
and the displayed text (the `<span ...>` demo.py line 87 / demo2.py line 98
emits, with the style attributes made explicit). -/
structure Fragment where
  r : ℤ
  g : ℤ
  b : ℤ
  textColor : String
  text : String
deriving DecidableEq

/-- demo.py lines 82-85: the text placed in the span, with the numeric
confidence appended when the checkbox is on. -/
def displayText (showConf : Bool) (w : TranscriptWord) : String :=
  if showConf then w.word ++ " (" ++ fmt2 w.confidence ++ ")" else w.word

/-- demo.py lines 75-87: the span rendered for one word. -/
def renderWord (showConf : Bool) (w : TranscriptWord) : Fragment :=
  { r := pyInt (255 * (1 - w.confidence))
    g := pyInt (255 * w.confidence)
    b := 0
    textColor := if w.confidence < 1 / 2 then "white" else "black"
    text := displayText showConf w }

/-- demo.py lines 74-88: the full sequence of rendered spans. -/
def renderWords (showConf : Bool) (ws : List TranscriptWord) : List Fragment :=
  ws.map (renderWord showConf)

/-- Python `sep.join(xs)`. -/
def pyJoin (sep : String) : List String → String
  | [] => ""
  | [a] => a
  | a :: b :: rest => a ++ sep ++ pyJoin sep (b :: rest)

/-- demo.py line 94: `" ".join([word["word"] for word in words])`. -/
def plain_text (ws : List TranscriptWord) : String :=
  pyJoin " " (ws.map (fun w => w.word))

/-- demo.py line 103, the per-word line of the detailed transcript:
`f"{word['word']} ({word['confidence']:.2f})"`. -/
def detailedLine (w : TranscriptWord) : String :=
  w.word ++ " (" ++ fmt2 w.confidence ++ ")"

/-- demo.py line 103: the newline-joined detailed transcript. -/
def detailed_text (ws : List TranscriptWord) : String :=
  pyJoin "\n" (ws.map detailedLine)

/-- demo2.py line 109: `" ".join([w.word for w in ...words])`. -/
def plain_text2 (ws : List TranscriptWord) : String :=
  pyJoin " " (ws.map (fun w => w.word))

/-- demo2.py line 118: `"\n".join([f"{w.word} ({w.confidence:.2f})" for w in ...words])`. -/
def detailed_text2 (ws : List TranscriptWord) : String :=
  pyJoin "\n" (ws.map (fun w => w.word ++ " (" ++ fmt2 w.confidence ++ ")"))

/-! ### Splitting strings

Python `s.split(sep)` for a one-character separator keeps empty segments:
`"".split(" ") == [""]`, `"a  b".split(" ") == ["a", "", "b"]`.  It is
modelled on the character list first. -/

/-- Split a character list at every occurrence of `c`, keeping empty
segments; the result is never empty. -/
def splitCharList (c : Char) : List Char → List (List Char)
  | [] => [[]]
  | a :: as =>
    match splitCharList c as with
    | [] => [[]]
    | l :: ls => if a = c then [] :: l :: ls else (a :: l) :: ls

/-- Python `s.split(c)` for a single-character separator `c`. -/
def pySplit (c : Char) (s : String) : List String :=
  (splitCharList c s.data).map String.mk

/-- Character-level join with a one-character separator, the image of
`pyJoin` under `String.data`. -/
def joinCharList (c : Char) : List (List Char) → List Char
  | [] => []
  | [l] => l
  | l :: l2 :: ls => l ++ c :: joinCharList c (l2 :: ls)

/-- The list of lines of a string in the sense of Python `splitlines` for
strings with no trailing newline: the empty string has no lines, otherwise
lines are the newline-separated segments. -/
def pyLines (s : String) : List String :=
  if s.data = [] then [] else (splitCharList '\n' s.data).map String.mk

/-! ### The demo2.py renderer (lines 66-106)

demo2.py walks the smart-formatted paragraph/sentence structure: it splits
each sentence text on spaces and pairs the resulting tokens positionally
with the flat word list via a running `word_count` counter.  Tokens beyond
the end of the word list are emitted as plain uncoloured spans. -/

/-- A sentence of the smart-formatted transcript (demo2.py `s` in line 76),
carrying its display text. -/
structure Sentence where
  text : String
deriving DecidableEq

/-- A paragraph of the smart-formatted transcript (demo2.py `p` in line 75). -/
structure Paragraph where
  sentences : List Sentence
deriving DecidableEq

/-- A span emitted by demo2.py: coloured (line 98) when a word object with
a confidence was available, plain (line 103) otherwise. -/
inductive Frag2 where
  | colored (f : Fragment)
  | plain (t : String)
deriving DecidableEq

/-- The display text of a demo2.py span. -/
def Frag2.text : Frag2 → String
  | Frag2.colored f => f.text
  | Frag2.plain t => t

/-- demo2.py lines 85-98: the coloured span built for a sentence token `t`
paired with the confidence of the positionally matching word object. -/
def renderWord2 (showConf : Bool) (t : String) (confidence : ℚ) : Fragment :=
  { r := pyInt (255 * (1 - confidence))
    g := pyInt (255 * confidence)
    b := 0
    textColor := if confidence < 1 / 2 then "white" else "black"
    text := if showConf then t ++ " (" ++ fmt2 confidence ++ ")" else t }

/-- demo2.py lines 82-103: the loop over the tokens of one sentence,
threading the running `word_count` index into the flat word list. -/
def renderTokens2 (showConf : Bool) (ws : List TranscriptWord) :
    List String → ℕ → List Frag2 × ℕ
  | [], wc => ([], wc)
  | t :: ts, wc =>
    if h : wc < ws.length then
      let rest := renderTokens2 showConf ws ts (wc + 1)
      (Frag2.colored (renderWord2 showConf t (ws.get ⟨wc, h⟩).confidence) :: rest.1,
        rest.2)
    else
      let rest := renderTokens2 showConf ws ts wc
      (Frag2.plain t :: rest.1, rest.2)

/-- demo2.py lines 76-106: rendering one sentence, whose tokens are
`s.text.split(' ')`. -/
def renderSentence2 (showConf : Bool) (ws : List TranscriptWord) (s : Sentence)
    (wc : ℕ) : List Frag2 × ℕ :=
  renderTokens2 showConf ws (pySplit ' ' s.text) wc

/-- demo2.py line 76: the loop over the sentences of one paragraph; each
sentence becomes its own div of spans. -/
def renderSentences2 (showConf : Bool) (ws : List TranscriptWord) :
    List Sentence → ℕ → List (List Frag2) × ℕ
  | [], wc => ([], wc)
  | s :: ss, wc =>
    let d := renderSentence2 showConf ws s wc
    let rest := renderSentences2 showConf ws ss d.2
    (d.1 :: rest.1, rest.2)

/-- demo2.py line 75: the loop over all paragraphs. -/
def renderParagraphs2 (showConf : Bool) (ws : List TranscriptWord) :
    List Paragraph → ℕ → List (List Frag2) × ℕ
  | [], wc => ([], wc)
  | p :: ps, wc =>
    let d := renderSentences2 showConf ws p.sentences wc
    let rest := renderParagraphs2 showConf ws ps d.2
    (d.1 ++ rest.1, rest.2)

/-! ### Decoded JSON documents and Python subscription errors

demo.py works on the raw decoded JSON of the provider response.  The
exceptions a subscription can raise are `KeyError`, `IndexError` and
`TypeError`; demo.py line 111 catches only `KeyError`. -/

/-- A decoded JSON document, the result of `json.loads` (demo.py line 58). -/
inductive Json where
  | null
  | bool (b : Bool)
  | num (q : ℚ)
  | str (s : String)
  | arr (elems : List Json)
  | obj (fields : List (String × Json))

/-- The Python exceptions that subscription and arithmetic on a decoded
JSON value can raise. -/
inductive PyErr where
  | keyError (k : String)
  | indexError
  | typeError
deriving DecidableEq

/-- Python `v[k]` for a string key `k`: a dict lookup, `KeyError` when the
key is absent, `TypeError` when `v` is not a dict (lists, strings, numbers,
booleans and `None` all reject string subscripts). -/
def getKey : Json → String → Except PyErr Json
  | Json.obj fs, k =>
    match fs.lookup k with
    | some v => Except.ok v
    | none => Except.error (PyErr.keyError k)
  | _, _ => Except.error PyErr.typeError

/-- Python `v[i]` for a numeric index: list indexing with `IndexError` out
of range, string indexing yielding a one-character string, `KeyError` on a
JSON-decoded dict (whose keys are strings), `TypeError` otherwise. -/
def getIndex : Json → ℕ → Except PyErr Json
  | Json.arr xs, i =>
    match xs.get? i with
    | some v => Except.ok v
    | none => Except.error PyErr.indexError
  | Json.str s, i =>
    match s.data.get? i with
    | some ch => Except.ok (Json.str (String.mk [ch]))
    | none => Except.error PyErr.indexError
  | Json.obj _, i => Except.error (PyErr.keyError (natDecimal i))
  | _, _ => Except.error PyErr.typeError

/-- demo.py line 67:
`results['results']['channels'][0]['alternatives'][0]['words']`. -/
def extractWords (results : Json) : Except PyErr Json := do
  let a ← getKey results "results"
  let b ← getKey a "channels"
  let c ← getIndex b 0
  let d ← getKey c "alternatives"
  let e ← getIndex d 0
  getKey e "words"

/-- Python iteration `for word in words`: lists yield their elements,
strings their one-character substrings, dicts their keys; other values
raise `TypeError`. -/
def asIterable : Json → Except PyErr (List Json)
  | Json.arr xs => Except.ok xs
  | Json.str s => Except.ok (s.data.map (fun ch => Json.str (String.mk [ch])))
  | Json.obj fs => Except.ok (fs.map (fun f => Json.str f.1))
  | _ => Except.error PyErr.typeError

/-- A value usable in Python arithmetic such as `255 * (1 - confidence)`:
numbers, and booleans (which Python treats as 0/1); everything else raises
`TypeError`. -/
def asNumber : Json → Except PyErr ℚ
  | Json.num q => Except.ok q
  | Json.bool b => Except.ok (if b then 1 else 0)
  | _ => Except.error PyErr.typeError

/-- The subscriptions and arithmetic demo.py lines 75-87 perform on one
element of the word list: `word['confidence']` (then used numerically) and
`word['word']` (used in both branches of the display text; its
stringification in the f-string cannot raise). -/
def checkWord (w : Json) : Except PyErr Unit := do
  let c ← getKey w "confidence"
  let _ ← asNumber c
  let _ ← getKey w "word"
  pure ()

/-- The exception behaviour of the body of demo.py display_transcription
(lines 66-109): extracting the word list, iterating it, and for each word
reading its `'confidence'` and `'word'` fields.  The later export
comprehensions (lines 94 and 103) read the same fields of the same words
and can raise nothing new.  `Except.ok ()` means the body runs to
completion; the rendered content is given by the pure layer
(`renderWords`, `plain_text`, `detailed_text`). -/
def renderBodyErr (results : Json) : Except PyErr Unit := do
  let wj ← extractWords results
  let ws ← asIterable wj
  ws.forM checkWord

/-- What the user sees from one call of a display function. -/
inductive RenderOutcome where
  | rendered
  | parseError (raw : Json)
  | raised (e : PyErr)

/-- demo.py lines 65-113: the whole display_transcription call.  The `try`
covers the body; `except KeyError` (line 111) reports the parse failure
and shows the raw payload (`st.json(results)`, line 113); every other
exception escapes the function. -/
def display_transcription (results : Json) : RenderOutcome :=
  match renderBodyErr results with
  | Except.ok _ => RenderOutcome.rendered
  | Except.error (PyErr.keyError _) => RenderOutcome.parseError results
  | Except.error e => RenderOutcome.raised e

/-! ### The demo2.py renderer error behaviour (lines 66-128)

The SDK hands demo2.py typed objects, so the only subscriptions that can
fail inside the body are `results.channels[0]` and its `alternatives[0]`
(lines 75, 83-84, 109, 118); word indexing is guarded by
`word_count < len(...)` and the paragraph/sentence loops cannot raise.
The handler at line 126 catches every exception and shows
`response.to_dict()`. -/

/-- A typed SDK alternative: the flat word list and the smart-formatted
paragraphs. -/
structure Alternative2 where
  words : List TranscriptWord
  paragraphs : List Paragraph

/-- A typed SDK channel. -/
structure Channel2 where
  alternatives : List Alternative2

/-- A typed SDK response: the `results` payload and its raw dict form
(`response.to_dict()`). -/
structure Response2 where
  channels : List Channel2
  raw : Json

/-- Python `xs[i]` on a list of typed objects. -/
def listGet (xs : List α) (i : ℕ) : Except PyErr α :=
  match xs.get? i with
  | some v => Except.ok v
  | none => Except.error PyErr.indexError

/-- The exception behaviour of the body of demo2.py display_transcription:
only the two positional subscripts can raise. -/
def renderBodyErr2 (resp : Response2) : Except PyErr Alternative2 := do
  let ch ← listGet resp.channels 0
  listGet ch.alternatives 0

/-- demo2.py lines 66-128: the whole display_transcription call; the
handler catches every exception (line 126) and exposes the raw dict. -/
def display_transcription2 (resp : Response2) : RenderOutcome :=
  match renderBodyErr2 resp with
  | Except.ok _ => RenderOutcome.rendered
  | Except.error _ => RenderOutcome.parseError resp.raw

/-! ### The transcription clients

demo.py transcribe_audio (lines 33-63) performs the HTTP POST itself: the
transport and `json.loads` are externally owned and enter the model as an
oracle describing how they went.  The decisive feature is on line 54-58:
the HTTP status of the response is never inspected. -/

/-- The outcome of the externally-owned transport: either an exception
during connect/send/receive, or a response with a status code and a body
that `json.loads` either decodes or rejects. -/
structure HttpResponse where
  status : ℕ
  body : Except Unit Json

/-- The exceptions transcribe_audio can let escape. -/
inductive TranscribeExc where
  | transport
  | jsonDecode
deriving DecidableEq

/-- demo.py lines 33-63: transport errors and JSON decode errors propagate
(there is no try in the function); any decoded body is returned as the
result — the status code is never read. -/
def transcribe_audio (resp : Except Unit HttpResponse) : Except TranscribeExc Json :=
  match resp with
  | Except.error _ => Except.error TranscribeExc.transport
  | Except.ok r =>
    match r.body with
    | Except.error _ => Except.error TranscribeExc.jsonDecode
    | Except.ok j => Except.ok j

/-- demo2.py lines 37-64: the SDK call either returns a typed response or
raises; `except Exception` re-raises every failure wrapped in a distinct
"Deepgram transcription error" exception (line 64). -/
def transcribe_audio2 (call : Except String Response2) : Except String Response2 :=
  match call with
  | Except.ok r => Except.ok r
  | Except.error e => Except.error ("Deepgram transcription error: " ++ e)

/-! ### The top-level transcribe flow and its gating

Both files share the same top level: the transcribe path is reachable only
when a file is uploaded and the credential is a non-empty string; inside
the button handler a temporary file is written, the client call and the
renderer run under `try ... except Exception ... finally os.unlink`. -/

/-- What the page shows for a given combination of inputs (demo.py lines
116-147, demo2.py lines 131-162). -/
inductive TopAction where
  | transcribeEnabled
  | warnNeedKey
  | infoNeedFile
  | infoNeedBoth
deriving DecidableEq

/-- The top-level `if/elif` chain: Python truthiness of the credential
string is non-emptiness, of the upload it is presence. -/
def topAction (hasFile : Bool) (apiKey : String) : TopAction :=
  if hasFile && apiKey != "" then TopAction.transcribeEnabled
  else if apiKey == "" && hasFile then TopAction.warnNeedKey
  else if apiKey != "" && !hasFile then TopAction.infoNeedFile
  else TopAction.infoNeedBoth

/-- The number of provider calls one page run issues: exactly one when the
transcribe path is enabled and the button is pressed, zero otherwise. -/
def networkCallCount (hasFile : Bool) (apiKey : String) (pressed : Bool) : ℕ :=
  if topAction hasFile apiKey = TopAction.transcribeEnabled ∧ pressed = true then 1
  else 0

/-- The outcome of one pressed transcribe button, together with whether the
temporary file was deleted. -/
inductive TopOutcome where
  | displayed (r : RenderOutcome)
  | topError

/-- demo.py lines 118-140: the temporary file is written, then
`try: transcribe_audio; display_transcription ... except Exception: st.error
... finally: os.unlink`.  Because the handler catches every exception,
control always reaches the `finally`, which deletes the temporary file —
recorded in the second component. -/
def transcribeFlow (resp : Except Unit HttpResponse) : TopOutcome × Bool :=
  let outcome :=
    match transcribe_audio resp with
    | Except.error _ => TopOutcome.topError
    | Except.ok results =>
      match display_transcription results with
      | RenderOutcome.raised _ => TopOutcome.topError
      | o => TopOutcome.displayed o
  (outcome, true)

/-- demo2.py lines 133-155: the same structure around the SDK client. -/
def transcribeFlow2 (call : Except String Response2) : TopOutcome × Bool :=
  let outcome :=
    match transcribe_audio2 call with
    | Except.error _ => TopOutcome.topError
    | Except.ok resp =>
      match display_transcription2 resp with
      | RenderOutcome.raised _ => TopOutcome.topError
      | o => TopOutcome.displayed o
  (outcome, true)

/-! ### Lemmas about splitting and joining -/

theorem mk_data (s : String) : String.mk s.data = s := rfl

theorem splitCharList_ne_nil (c : Char) (l : List Char) : splitCharList c l ≠ [] := by
  induction l with
  | nil => simp [splitCharList]
  | cons a as ih =>
    simp only [splitCharList]
    match h : splitCharList c as with
    | [] => simp
    | x :: xs =>
      by_cases hc : a = c <;> simp [hc]

theorem splitCharList_of_not_mem {c : Char} {l : List Char} (h : c ∉ l) :
    splitCharList c l = [l] := by
  induction l with
  | nil => rfl
  | cons a as ih =>
    have ha : a ≠ c := fun hac => h (hac ▸ List.mem_cons_self a as)
    have has : c ∉ as := fun hc => h (List.mem_cons_of_mem a hc)
    simp only [splitCharList, ih has, ha, if_false]

theorem splitCharList_append_sep {c : Char} {l : List Char} (r : List Char)
    (h : c ∉ l) : splitCharList c (l ++ c :: r) = l :: splitCharList c r := by
  induction l with
  | nil =>
    simp only [List.nil_append, splitCharList]
    match hr : splitCharList c r with
    | [] => exact absurd hr (splitCharList_ne_nil c r)
    | x :: xs => simp
  | cons a as ih =>
    have ha : a ≠ c := fun hac => h (hac ▸ List.mem_cons_self a as)
    have has : c ∉ as := fun hc => h (List.mem_cons_of_mem a hc)
    simp only [List.cons_append, splitCharList, List.append_eq]
    rw [ih has]
    simp [ha]

theorem splitCharList_joinCharList (c : Char) (ls : List (List Char))
    (h1 : ls ≠ []) (h2 : ∀ l ∈ ls, c ∉ l) :
    splitCharList c (joinCharList c ls) = ls := by
  induction ls with
  | nil => exact absurd rfl h1
  | cons l rest ih =>
    match rest with
    | [] =>
      simp only [joinCharList]
      exact splitCharList_of_not_mem (h2 l (List.mem_cons_self l []))
    | l2 :: rest2 =>
      simp only [joinCharList]
      rw [splitCharList_append_sep _ (h2 l (List.mem_cons_self l _))]
      rw [ih (by simp) (fun x hx => h2 x (List.mem_cons_of_mem l hx))]

theorem pyJoin_data (sep : String) (c : Char) (hsep : sep.data = [c])
    (ss : List String) :
    (pyJoin sep ss).data = joinCharList c (ss.map String.data) := by
  induction ss with
  | nil => rfl
  | cons s rest ih =>
    match rest with
    | [] => rfl
    | s2 :: rest2 =>
      simp only [pyJoin, List.map, joinCharList, String.data_append, ih, hsep]
      simp

theorem pySplit_pyJoin (c : Char) (sep : String) (hsep : sep.data = [c])
    (ss : List String) (h1 : ss ≠ []) (h2 : ∀ s ∈ ss, c ∉ s.data) :
    pySplit c (pyJoin sep ss) = ss := by
  unfold pySplit
  rw [pyJoin_data sep c hsep ss,
    splitCharList_joinCharList c (ss.map String.data) (by simpa using h1)
      (by intro l hl; obtain ⟨s, hs, rfl⟩ := List.mem_map.mp hl; exact h2 s hs)]
  rw [List.map_map]
  have hid : (String.mk ∘ String.data) = id := funext mk_data
  rw [hid, List.map_id]

/-! ### Lemmas about decimal rendering -/

theorem natDigitsAux_mem_digits (fuel : ℕ) : ∀ (n : ℕ) (ch : Char),
    ch ∈ natDigitsAux fuel n →
    ch ∈ ['0', '1', '2', '3', '4', '5', '6', '7', '8', '9'] := by
  induction fuel with
  | zero => intro n ch h; simp [natDigitsAux] at h
  | succ fuel ih =>
    intro n ch h
    simp only [natDigitsAux] at h
    by_cases hn : n < 10
    · rw [if_pos hn] at h
      obtain rfl := List.mem_singleton.mp h
      revert hn
      generalize n = m
      intro hm
      interval_cases m <;> decide
    · rw [if_neg hn] at h
      rcases List.mem_append.mp h with h1 | h1
      · exact ih _ _ h1
      · obtain rfl := List.mem_singleton.mp h1
        have hm : n % 10 < 10 := Nat.mod_lt _ (by norm_num)
        revert hm
        generalize n % 10 = m
        intro hm
        interval_cases m <;> decide

theorem newline_not_mem_natDecimal (n : ℕ) : '\n' ∉ (natDecimal n).data :=
  fun h => absurd (natDigitsAux_mem_digits _ _ _ h) (by decide)

theorem newline_not_mem_twoDigitString (m : ℕ) : '\n' ∉ (twoDigitString m).data := by
  intro h
  unfold twoDigitString at h
  rw [String.data_append] at h
  rcases List.mem_append.mp h with h1 | h1
  · have h2 : '\n' ∈ ("0" : String).data ∨ '\n' ∈ ("" : String).data := by
      by_cases hm : m < 10
      · rw [if_pos hm] at h1; exact Or.inl h1
      · rw [if_neg hm] at h1; exact Or.inr h1
    rcases h2 with h2 | h2
    · exact absurd h2 (by decide)
    · exact absurd h2 (by decide)
  · exact newline_not_mem_natDecimal m h1

theorem newline_not_mem_fmt2 (q : ℚ) : '\n' ∉ (fmt2 q).data := by
  intro h
  unfold fmt2 at h
  rw [String.data_append, String.data_append] at h
  rcases List.mem_append.mp h with h1 | h1
  · rcases List.mem_append.mp h1 with h2 | h2
    · exact newline_not_mem_natDecimal _ h2
    · exact absurd h2 (by decide)
  · exact newline_not_mem_twoDigitString _ h1

theorem newline_not_mem_detailedLine {w : TranscriptWord} (h : '\n' ∉ w.word.data) :
    '\n' ∉ (detailedLine w).data := by
  intro hm
  unfold detailedLine at hm
  rw [String.data_append, String.data_append, String.data_append] at hm
  rcases List.mem_append.mp hm with h1 | h1
  · rcases List.mem_append.mp h1 with h2 | h2
    · rcases List.mem_append.mp h2 with h3 | h3
      · exact h h3
      · exact absurd h3 (by decide)
    · exact newline_not_mem_fmt2 _ h2
  · exact absurd h1 (by decide)

theorem detailedLine_data_ne_nil (w : TranscriptWord) : (detailedLine w).data ≠ [] := by
  intro h
  unfold detailedLine at h
  rw [String.data_append] at h
  rcases List.append_eq_nil.mp h with ⟨h1, h2⟩
  exact absurd h2 (by decide)

theorem pyLines_pyJoin (ss : List String) (h1 : ss ≠ [])
    (h2 : ∀ s ∈ ss, '\n' ∉ s.data) (h3 : ∀ s ∈ ss, s.data ≠ []) :
    pyLines (pyJoin "\n" ss) = ss := by
  have hd : (pyJoin "\n" ss).data = joinCharList '\n' (ss.map String.data) :=
    pyJoin_data _ _ rfl ss
  have hne : (pyJoin "\n" ss).data ≠ [] := by
    rw [hd]
    match ss with
    | [s] =>
      simpa [joinCharList] using h3 s (List.mem_cons_self s [])
    | s :: s2 :: rest =>
      simp [joinCharList]
  unfold pyLines
  rw [hd] at hne ⊢
  rw [if_neg hne]
  rw [splitCharList_joinCharList '\n' (ss.map String.data) (by simpa using h1)
    (fun l hl => by
      obtain ⟨s, hs, rfl⟩ := List.mem_map.mp hl
      exact h2 s hs)]
  rw [List.map_map]
  have hid : (String.mk ∘ String.data) = id := funext mk_data
  rw [hid, List.map_id]

theorem pyLines_detailed_text (ws : List TranscriptWord)
    (h : ∀ w ∈ ws, '\n' ∉ w.word.data) :
    pyLines (detailed_text ws) = ws.map detailedLine := by
  cases ws with
  | nil => rfl
  | cons w rest =>
    unfold detailed_text
    apply pyLines_pyJoin
    · simp
    · intro s hs
      obtain ⟨w', hw', rfl⟩ := List.mem_map.mp hs
      exact newline_not_mem_detailedLine (h w' hw')
    · intro s hs
      obtain ⟨w', hw', rfl⟩ := List.mem_map.mp hs
      exact detailedLine_data_ne_nil w'

/-- Evaluation helper: once the scaled rounding of the confidence is known,
`fmt2` is a concrete string computation. -/
theorem fmt2_eval (q : ℚ) (n : ℕ) (h : roundHalfEven (100 * q) = (n : ℤ)) :
    fmt2 q = natDecimal (n / 100) ++ "." ++ twoDigitString (n % 100) := by
  simp [fmt2, h]

/-! ### The claims -/

/-- C1, counterexample: at confidence 1/2 the code's green channel is
`int(255 * 0.5) = 127`, while the claimed `round(255 * 0.5)` is 128 — the
code truncates, it does not round. -/
theorem c1_round_counterexample :
    (renderWord false { word := "x", confidence := 1 / 2 }).g ≠
      round ((255 : ℚ) * (1 / 2)) := by
  have h1 : (renderWord false { word := "x", confidence := 1 / 2 }).g = 127 := by
    norm_num [renderWord, pyInt]
  have h2 : round ((255 : ℚ) * (1 / 2)) = 128 := by norm_num [round_eq]
  rw [h1, h2]
  decide

/-- C1, amended: for every confidence c in [0,1], both demos compute the
background colour as red = trunc(255 * (1 - c)), green = trunc(255 * c),
blue = 0, where trunc is Python `int()` truncation toward zero — equal to
the floor on [0,1], not to `round`. -/
theorem c1_color_truncation (showConf : Bool) (w : TranscriptWord) (t : String)
    (h0 : 0 ≤ w.confidence) (h1 : w.confidence ≤ 1) :
    (renderWord showConf w).r = ⌊255 * (1 - w.confidence)⌋ ∧
    (renderWord showConf w).g = ⌊255 * w.confidence⌋ ∧
    (renderWord showConf w).b = 0 ∧
    (renderWord2 showConf t w.confidence).r = ⌊255 * (1 - w.confidence)⌋ ∧
    (renderWord2 showConf t w.confidence).g = ⌊255 * w.confidence⌋ ∧
    (renderWord2 showConf t w.confidence).b = 0 := by
  have hr : (0 : ℚ) ≤ 255 * (1 - w.confidence) := by
    have : (0 : ℚ) ≤ 1 - w.confidence := by linarith
    positivity
  have hg : (0 : ℚ) ≤ 255 * w.confidence := by positivity
  refine ⟨?_, ?_, rfl, ?_, ?_, rfl⟩ <;>
    simp [renderWord, renderWord2, pyInt, hr, hg]

/-- C1, witness for `c1_color_truncation`: the theorem applied at
confidence 31/100. -/
theorem c1_color_truncation_witness :
    (0 : ℚ) ≤ 31 / 100 ∧ (31 / 100 : ℚ) ≤ 1 ∧
    (renderWord false { word := "hi", confidence := 31 / 100 }).g =
      ⌊(255 : ℚ) * (31 / 100)⌋ :=
  ⟨by norm_num, by norm_num,
    (c1_color_truncation false { word := "hi", confidence := 31 / 100 } "hi"
      (by norm_num) (by norm_num)).2.1⟩

/-- C2, counterexample: in demo2.py the displayed token comes from
splitting the smart-formatted sentence text, not from the word object —
for the word "hello" with sentence text "Hello." the rendered fragment
shows "Hello.", which differs from the word's text. -/
theorem c2_display_text_counterexample :
    (renderSentence2 false [{ word := "hello", confidence := 9 / 10 }]
        { text := "Hello." } 0).1.map Frag2.text = ["Hello."] ∧
    ("Hello." : String) ≠ "hello" := by
  exact ⟨rfl, by decide⟩

/-- C2, amended: in demo.py the fragment text is exactly the word's text,
with " (c.2f)" appended when show_numeric_confidence is on.  In demo2.py
the fragment text is the token obtained by splitting the sentence text on
spaces — paired positionally with a word object whose confidence is used —
and need not equal the word's own text. -/
theorem c2_display_text_amended :
    (∀ (sc : Bool) (w : TranscriptWord),
      (renderWord sc w).text =
        if sc then w.word ++ " (" ++ fmt2 w.confidence ++ ")" else w.word) ∧
    (∀ (sc : Bool) (ws : List TranscriptWord) (t : String) (ts : List String)
      (wc : ℕ) (h : wc < ws.length),
      (renderTokens2 sc ws (t :: ts) wc).1.head? =
        some (Frag2.colored (renderWord2 sc t (ws.get ⟨wc, h⟩).confidence))) ∧
    (∀ (sc : Bool) (t : String) (c : ℚ),
      (renderWord2 sc t c).text = if sc then t ++ " (" ++ fmt2 c ++ ")" else t) := by
  refine ⟨fun sc w => rfl, fun sc ws t ts wc h => ?_, fun sc t c => rfl⟩
  simp [renderTokens2, h]

/-- C2, witness for `c2_display_text_amended`: the demo2 clause applied at
token "b" against the one-word list ["a"]. -/
theorem c2_display_text_amended_witness :
    0 < 1 ∧
    (renderTokens2 false [{ word := "a", confidence := 1 / 2 }] ["b"] 0).1.head? =
      some (Frag2.colored (renderWord2 false "b" (1 / 2))) :=
  ⟨by decide,
    c2_display_text_amended.2.1 false [{ word := "a", confidence := 1 / 2 }]
      "b" [] 0 (by decide)⟩

/-- C3, counterexample: for the empty word sequence, `plain_text` is `""`
and splitting it on spaces yields `[""]`, not the empty sequence — the
join/split round-trip fails for the empty sequence. -/
theorem c3_split_join_counterexample :
    pySplit ' ' (plain_text []) ≠
      (([] : List TranscriptWord)).map (fun w => w.word) := by
  decide

/-- C3, amended: `plain_text` is the word texts joined by single spaces in
original order for every sequence (and `""` for the empty one); the
round-trip of splitting `plain_text` on spaces holds for every NON-EMPTY
sequence of word texts containing no spaces. -/
theorem c3_join_split_roundtrip :
    plain_text [] = "" ∧
    ∀ ws : List TranscriptWord, ws ≠ [] → (∀ w ∈ ws, ' ' ∉ w.word.data) →
      pySplit ' ' (plain_text ws) = ws.map (fun w => w.word) := by
  refine ⟨rfl, fun ws h1 h2 => ?_⟩
  apply pySplit_pyJoin ' ' " " rfl
  · simpa using h1
  · intro s hs
    obtain ⟨w, hw, rfl⟩ := List.mem_map.mp hs
    exact h2 w hw

/-- C3, witness for `c3_join_split_roundtrip`: splitting
"hello world" recovers ["hello", "world"]. -/
theorem c3_join_split_roundtrip_witness :
    ([{ word := "hello", confidence := 92 / 100 },
      { word := "world", confidence := 31 / 100 }] : List TranscriptWord) ≠ [] ∧
    pySplit ' '
        (plain_text [{ word := "hello", confidence := 92 / 100 },
          { word := "world", confidence := 31 / 100 }]) =
      ["hello", "world"] :=
  ⟨by simp,
    c3_join_split_roundtrip.2
      [{ word := "hello", confidence := 92 / 100 },
        { word := "world", confidence := 31 / 100 }]
      (by simp)
      (by
        intro w hw
        simp only [List.mem_cons, List.not_mem_nil, or_false] at hw
        rcases hw with rfl | rfl <;> decide)⟩

/-- C4, counterexample: a word whose text contains a newline breaks the
one-line-per-word shape — for the single word "a\nb" the detailed export
has two lines, not one. -/
theorem c4_detailed_lines_counterexample :
    (pyLines (detailed_text [{ word := "a\nb", confidence := 1 / 2 }])).length ≠
      ([{ word := "a\nb", confidence := 1 / 2 }] : List TranscriptWord).length := by
  have hf : fmt2 (1 / 2) = "0.50" := by
    rw [fmt2_eval (1 / 2) 50 (by norm_num [roundHalfEven])]
    decide
  simp only [detailed_text, detailedLine, List.map, hf, pyJoin]
  decide

/-- C4, amended: for every sequence of words whose texts contain no
newline, `detailed_text` is the newline-join of one line per word of the
form "word (confidence to 2 decimals)", so its line count equals the word
count; word texts containing newlines break the correspondence. -/
theorem c4_detailed_lines (ws : List TranscriptWord)
    (h : ∀ w ∈ ws, '\n' ∉ w.word.data) :
    detailed_text ws = pyJoin "\n" (ws.map detailedLine) ∧
    pyLines (detailed_text ws) = ws.map detailedLine ∧
    (pyLines (detailed_text ws)).length = ws.length := by
  refine ⟨rfl, pyLines_detailed_text ws h, ?_⟩
  rw [pyLines_detailed_text ws h, List.length_map]

/-- C4, witness for `c4_detailed_lines`: the spec's end-to-end example
[("hello", 0.92), ("world", 0.31)] has exactly two lines. -/
theorem c4_detailed_lines_witness :
    (pyLines (detailed_text [{ word := "hello", confidence := 92 / 100 },
        { word := "world", confidence := 31 / 100 }])).length = 2 :=
  (c4_detailed_lines
      [{ word := "hello", confidence := 92 / 100 },
        { word := "world", confidence := 31 / 100 }]
      (by
        intro w hw
        simp only [List.mem_cons, List.not_mem_nil, or_false] at hw
        rcases hw with rfl | rfl <;> decide)).2.2

/-- A malformed provider result whose channel list is empty: the expected
word-list fields are missing, but the failing access raises `IndexError`,
not `KeyError`. -/
def malformedEmptyChannels : Json :=
  Json.obj [("results", Json.obj [("channels", Json.arr [])])]

/-- A malformed provider result missing the `'channels'` field. -/
def malformedNoChannels : Json :=
  Json.obj [("results", Json.obj [])]

/-- C5, counterexample: on a result with an empty channel list, demo.py's
renderer raises an uncaught `IndexError` (only `KeyError` is handled) —
it does not report the malformed-result failure with the raw payload. -/
theorem c5_malformed_counterexample :
    display_transcription malformedEmptyChannels =
      RenderOutcome.raised PyErr.indexError ∧
    display_transcription malformedEmptyChannels ≠
      RenderOutcome.parseError malformedEmptyChannels := by
  refine ⟨rfl, fun h => ?_⟩
  rw [show display_transcription malformedEmptyChannels =
      RenderOutcome.raised PyErr.indexError from rfl] at h
  exact RenderOutcome.noConfusion h

/-- C5, amended: demo.py reports the distinct parse failure and exposes the
raw payload exactly when the malformed access raises a `KeyError` (a
missing dict field); malformed shapes that raise `IndexError` or
`TypeError` escape the renderer.  demo2.py catches every exception, so it
never lets one escape and always exposes the raw dict on failure. -/
theorem c5_malformed_handling :
    (∀ (results : Json) (k : String),
      renderBodyErr results = Except.error (PyErr.keyError k) →
      display_transcription results = RenderOutcome.parseError results) ∧
    (∀ resp : Response2,
      display_transcription2 resp = RenderOutcome.rendered ∨
      display_transcription2 resp = RenderOutcome.parseError resp.raw) := by
  constructor
  · intro results k h
    unfold display_transcription
    rw [h]
  · intro resp
    unfold display_transcription2
    cases renderBodyErr2 resp with
    | ok a => exact Or.inl rfl
    | error e => exact Or.inr rfl

/-- C5, witness for `c5_malformed_handling`: a result missing the
`'channels'` field raises `KeyError 'channels'`, and the renderer reports
the parse failure with the raw payload. -/
theorem c5_malformed_handling_witness :
    renderBodyErr malformedNoChannels =
      Except.error (PyErr.keyError "channels") ∧
    display_transcription malformedNoChannels =
      RenderOutcome.parseError malformedNoChannels :=
  ⟨rfl, c5_malformed_handling.1 malformedNoChannels "channels" rfl⟩

/-- The JSON body Deepgram returns alongside a non-success HTTP status. -/
def errorBody : Json :=
  Json.obj [("err_code", Json.str "INVALID_AUTH"),
    ("err_msg", Json.str "Invalid credentials.")]

/-- C6, counterexample: demo.py never inspects the HTTP status — a 401
response with a decodable JSON error body is returned as a successful
result, not reported as a failure. -/
theorem c6_status_counterexample :
    transcribe_audio (Except.ok { status := 401, body := Except.ok errorBody }) =
      Except.ok errorBody ∧
    transcribe_audio (Except.ok { status := 401, body := Except.ok errorBody }) ≠
      Except.error TranscribeExc.transport ∧
    transcribe_audio (Except.ok { status := 401, body := Except.ok errorBody }) ≠
      Except.error TranscribeExc.jsonDecode := by
  refine ⟨rfl, fun h => ?_, fun h => ?_⟩ <;>
  · rw [show transcribe_audio
        (Except.ok { status := 401, body := Except.ok errorBody }) =
        Except.ok errorBody from rfl] at h
    exact Except.noConfusion h

/-- C6, amended: in demo.py, transport failures and undecodable bodies
propagate as distinct catchable exceptions, but any response whose body
decodes as JSON is returned as the result regardless of its HTTP status —
a non-success provider status is NOT itself reported as a failure.  In
demo2.py every SDK failure is re-raised as a distinct
"Deepgram transcription error" exception and successes pass through. -/
theorem c6_failure_reporting :
    transcribe_audio (Except.error ()) = Except.error TranscribeExc.transport ∧
    (∀ s : ℕ, transcribe_audio
        (Except.ok { status := s, body := Except.error () }) =
      Except.error TranscribeExc.jsonDecode) ∧
    (∀ (s : ℕ) (j : Json), transcribe_audio
        (Except.ok { status := s, body := Except.ok j }) = Except.ok j) ∧
    (∀ e : String, transcribe_audio2 (Except.error e) =
      Except.error ("Deepgram transcription error: " ++ e)) ∧
    (∀ r : Response2, transcribe_audio2 (Except.ok r) = Except.ok r) :=
  ⟨rfl, fun _ => rfl, fun _ _ => rfl, fun _ => rfl, fun _ => rfl⟩

/-- C7, confirmed: in both files the call-and-render flow runs under
`try ... except Exception ... finally: os.unlink(tmp_file_path)`; since the
handler absorbs every exception, the `finally` always runs and the
temporary file is deleted on every exit path. -/
theorem c7_temp_file_cleanup (resp : Except Unit HttpResponse)
    (call : Except String Response2) :
    (transcribeFlow resp).2 = true ∧ (transcribeFlow2 call).2 = true :=
  ⟨rfl, rfl⟩

/-- C8, confirmed: with an empty credential the transcribe path is
unreachable, the user sees a prompt (the warning when a file is selected,
the info message otherwise), and the provider call count is zero. -/
theorem c8_missing_credential_blocks (hasFile pressed : Bool) (apiKey : String)
    (h : apiKey = "") :
    topAction hasFile apiKey ≠ TopAction.transcribeEnabled ∧
    networkCallCount hasFile apiKey pressed = 0 ∧
    (hasFile = true → topAction hasFile apiKey = TopAction.warnNeedKey) ∧
    (hasFile = false → topAction hasFile apiKey = TopAction.infoNeedBoth) := by
  subst h
  cases hasFile <;> cases pressed <;> decide

/-- C8, witness for `c8_missing_credential_blocks`: empty key, file
selected, button pressed — blocked with the warning and zero calls. -/
theorem c8_missing_credential_blocks_witness :
    topAction true "" ≠ TopAction.transcribeEnabled ∧
    networkCallCount true "" true = 0 ∧
    (true = true → topAction true "" = TopAction.warnNeedKey) ∧
    (true = false → topAction true "" = TopAction.infoNeedBoth) :=
  c8_missing_credential_blocks true true "" rfl

/-- C9, confirmed: in both files the foreground colour is "white" exactly
when the confidence is below 1/2 and "black" otherwise — in particular
black at exactly 1/2; the threshold is the fixed literal 0.5. -/
theorem c9_text_color_threshold (showConf : Bool) (w : TranscriptWord)
    (t : String) (c : ℚ) :
    ((renderWord showConf w).textColor = "white" ↔ w.confidence < 1 / 2) ∧
    ((renderWord showConf w).textColor = "black" ↔ ¬ w.confidence < 1 / 2) ∧
    ((renderWord2 showConf t c).textColor = "white" ↔ c < 1 / 2) ∧
    ((renderWord2 showConf t c).textColor = "black" ↔ ¬ c < 1 / 2) := by
  refine ⟨?_, ?_, ?_, ?_⟩
  · by_cases h : w.confidence < 1 / 2 <;> simp [renderWord, h]
  · by_cases h : w.confidence < 1 / 2 <;> simp [renderWord, h]
  · by_cases h : c < 1 / 2 <;> simp [renderWord2, h]
  · by_cases h : c < 1 / 2 <;> simp [renderWord2, h]

/-- C10, confirmed: for the same ordered word list, the direct-HTTP demo
and the SDK demo produce identical plain and detailed export strings. -/
theorem c10_export_equivalence (ws : List TranscriptWord) :
    plain_text ws = plain_text2 ws ∧ detailed_text ws = detailed_text2 ws :=
  ⟨rfl, rfl⟩

end DeepgramDemo
